import Mathlib

/-
Verification development for the statement extraction and parsing pipeline of
the clio repository (services/worker/app). The Python sources are shallowly
embedded: text is modelled as List Char, Python Decimal as ℚ, Python float
scores as exact ℚ (every reachable score is an exact multiple of 1/100, far
above float error, so exact arithmetic agrees with the float computation),
datetime.date as a year/month/day record, and the results of the `re` library
calls made by the shared BaseParser helpers (extract_amount, extract_date,
extract_card_last_four) as an explicit record of outcomes, universally
quantified where a claim speaks about every input. The one regex used by
CTBCParser._parse_taiwan_date is embedded concretely, including its
backtracking behaviour. Python str.lower, str.strip and the regex classes
\s and \d are modelled on the ASCII range; they act identically on every
character appearing in the pattern tables of the sources.
-/

/-! ## Basic character and string primitives -/

/-- ASCII whitespace test, modelling the Python regex class \s and the
default character set of str.strip. -/
def isSpaceC (c : Char) : Bool :=
  c == ' ' || c == '\t' || c == '\n' || c == '\r' || c == '\x0b' || c == '\x0c'

/-- ASCII decimal digit test, modelling the Python regex class \d. -/
def isDigitC (c : Char) : Bool :=
  decide ('0' ≤ c) && decide (c ≤ '9')

/-- Numeric value of a digit character. -/
def digitVal (c : Char) : ℕ := c.toNat - '0'.toNat

/-- Digit character for a value below ten. -/
def digitChar (k : ℕ) : Char := Char.ofNat ('0'.toNat + k)

/-- Lower-casing of one character, modelling Python str.lower on the ASCII
range; CJK characters, which make up the rest of the keyword tables, are
fixed points of str.lower exactly as they are here. -/
def lowerChar (c : Char) : Char :=
  if 'A' ≤ c ∧ c ≤ 'Z' then Char.ofNat (c.toNat + 32) else c

/-- Lower-casing of a string, modelling Python str.lower. -/
def pyLower (s : List Char) : List Char := s.map lowerChar

/-- Substring containment, modelling the Python expression needle in hay. -/
def pyIn (needle : List Char) : List Char → Bool
  | [] => needle.isEmpty
  | c :: t => needle.isPrefixOf (c :: t) || pyIn needle t

/-- Leading and trailing whitespace removal, modelling Python str.strip(). -/
def pyStrip (s : List Char) : List Char :=
  ((s.dropWhile isSpaceC).reverse.dropWhile isSpaceC).reverse

/-- Worker for collapseWs; the Bool records whether the previous character
was part of a whitespace run already replaced by one space. -/
def collapseWsAux : Bool → List Char → List Char
  | _, [] => []
  | prevSpace, c :: t =>
    if isSpaceC c then
      if prevSpace then collapseWsAux true t else ' ' :: collapseWsAux true t
    else c :: collapseWsAux false t

/-- Replacement of every maximal whitespace run by a single space, modelling
re.sub of one-or-more whitespace with one space in BaseParser.clean_text. -/
def collapseWs (s : List Char) : List Char := collapseWsAux false s

/-- Embedding of BaseParser.clean_text (parsers/base.py): collapse whitespace
runs, normalize the two OCR artifact characters, strip. -/
def clean_text (text : List Char) : List Char :=
  let text := collapseWs text
  let text := text.map (fun c => if c = '｜' then '|' else if c = '—' then '-' else c)
  pyStrip text

/-! ## Dates -/

/-- Calendar date, modelling Python datetime.date values. -/
structure Date where
  year : ℕ
  month : ℕ
  day : ℕ
deriving DecidableEq

/-- Leap year test of the proleptic Gregorian calendar used by
datetime.date. -/
def isLeap (y : ℕ) : Bool :=
  (y % 4 == 0 && y % 100 != 0) || y % 400 == 0

/-- Number of days of a month in the calendar of datetime.date. -/
def daysInMonth (y : ℕ) (m : ℕ) : ℕ :=
  if m = 2 then (if isLeap y then 29 else 28)
  else if m = 4 ∨ m = 6 ∨ m = 9 ∨ m = 11 then 30 else 31

/-- Validity of a (year, month, day) triple for the datetime.date
constructor, which raises ValueError outside these bounds. -/
def date_ok (y m d : ℕ) : Prop :=
  1 ≤ y ∧ y ≤ 9999 ∧ 1 ≤ m ∧ m ≤ 12 ∧ 1 ≤ d ∧ d ≤ daysInMonth y m

instance (y m d : ℕ) : Decidable (date_ok y m d) := by
  unfold date_ok; infer_instance

/-- Next calendar day. -/
def Date.succ (d : Date) : Date :=
  if d.day < daysInMonth d.year d.month then ⟨d.year, d.month, d.day + 1⟩
  else if d.month < 12 then ⟨d.year, d.month + 1, 1⟩
  else ⟨d.year + 1, 1, 1⟩

/-- Embedding of date + timedelta(days equal to n) for a nonnegative count of
days, as used by the due-date default heuristics of the parsers. -/
def Date.addDays (d : Date) : ℕ → Date
  | 0 => d
  | n + 1 => (Date.addDays d n).succ

/-- Decimal rendering of a number, zero-padded on the left to the given
width, as the strftime field specifiers produce. -/
def padNum (width : ℕ) (n : ℕ) : List Char :=
  let ds := Nat.toDigits 10 n
  List.replicate (width - ds.length) '0' ++ ds

/-- Embedding of date.strftime applied to the format string with the year
field, a hyphen and the month field, producing the statement_month value. -/
def formatYM (d : Date) : List Char :=
  padNum 4 d.year ++ ['-'] ++ padNum 2 d.month

/-! ## Python truthiness and rounding -/

/-- Python truthiness of an Optional[Decimal]: None and Decimal zero are
falsy, every other value truthy. -/
def optQTruthy (o : Option ℚ) : Prop :=
  match o with
  | none => False
  | some a => a ≠ 0

instance (o : Option ℚ) : Decidable (optQTruthy o) := by
  unfold optQTruthy; cases o <;> infer_instance

/-- Python truthiness of a datetime.date object: date instances are always
truthy, so the tests on statement_date and due_date in the sources are
constant true once the default heuristics have run. -/
def dateTruthy (_ : Date) : Prop := True

instance (d : Date) : Decidable (dateTruthy d) := .isTrue True.intro

/-- Floor of a rational number computed on its reduced representation. -/
def ratFloor (q : ℚ) : ℤ := Int.fdiv q.num q.den

/-- Embedding of the Python builtin round(score, 2): round to the nearest
multiple of one hundredth, ties to even. Every score reachable in the
confidence formulas is an exact multiple of one hundredth, so the tie branch
is never exercised there and the float representation error (below 1e-12) of
the Python computation never crosses a rounding boundary. -/
def pyRound2 (q : ℚ) : ℚ :=
  let s := q * 100
  let f := ratFloor s
  let frac := s - (f : ℚ)
  let r : ℤ :=
    if frac < 1/2 then f
    else if 1/2 < frac then f + 1
    else if f % 2 = 0 then f else f + 1
  (r : ℚ) / 100

/-! ## The ParsedBill record (parsers/base.py) -/

/-- Embedding of the ParsedBill dataclass of parsers/base.py. The dataclass
has exactly these fields; in particular it has no raw_fields attribute. -/
structure ParsedBill where
  bank_name : List Char
  card_last_four : List Char
  statement_date : Date
  statement_month : List Char
  due_date : Date
  total_amount_due : ℚ
  minimum_due : Option ℚ
  currency : List Char
  confidence_score : ℚ
  extracted_fields : List (List Char)
  raw_text : List Char

/-! ## Bank detection (parsers/base.py, class BankDetector) -/

/-- Embedding of BankDetector.BANK_INDICATORS, in dict insertion order. -/
def BANK_INDICATORS : List (List Char × List (List Char)) :=
  [("CTBC".toList,
    ["中國信託".toList, "CTBC".toList, "中信".toList, "Chinatrust".toList]),
   ("Cathay United Bank".toList,
    ["國泰世華".toList, "Cathay".toList, "CUB".toList, "世華".toList]),
   ("Taishin Bank".toList,
    ["台新".toList, "Taishin".toList, "TSBank".toList, "Richart".toList])]

/-- Per-bank score of BankDetector.detect_bank: the number of indicator
keywords whose lower-case form occurs in the lower-cased text. -/
def bankScore (text : List Char) (kws : List (List Char)) : ℕ :=
  kws.foldl (fun s kw => if pyIn (pyLower kw) (pyLower text) then s + 1 else s) 0

/-- First maximum of an association list by score, modelling the Python
builtin max over dict keys with the score lookup as key function, which keeps
the earliest key on ties. -/
def argmaxFirst : List (List Char × ℕ) → Option (List Char × ℕ)
  | [] => none
  | x :: t =>
    match argmaxFirst t with
    | none => some x
    | some y => if x.2 < y.2 then some y else some x

/-- Embedding of BankDetector.detect_bank: score every bank, take the first
maximum in insertion order, return it when its score is positive. -/
def detect_bank (text : List Char) : Option (List Char) :=
  let scores := BANK_INDICATORS.map (fun p => (p.1, bankScore text p.2))
  match argmaxFirst scores with
  | some best => if 0 < best.2 then some best.1 else none
  | none => none

/-! ## Detection keywords and can_parse (one per parser) -/

/-- Embedding of CTBCParser.DETECTION_KEYWORDS. -/
def CTBC_DETECTION_KEYWORDS : List (List Char) :=
  ["中國信託".toList, "CTBC".toList, "中信".toList, "Chinatrust".toList,
   "信用卡帳單".toList]

/-- Embedding of CathayUnitedParser.DETECTION_KEYWORDS. -/
def CATHAY_DETECTION_KEYWORDS : List (List Char) :=
  ["國泰世華".toList, "Cathay".toList, "CUB".toList, "世華".toList,
   "Cathay United".toList]

/-- Embedding of TaishinParser.DETECTION_KEYWORDS. -/
def TAISHIN_DETECTION_KEYWORDS : List (List Char) :=
  ["台新".toList, "Taishin".toList, "TSBank".toList, "Richart".toList,
   "台新銀行".toList]

/-- Embedding of CTBCParser.can_parse: some detection keyword occurs,
case-insensitively, in the text. -/
def ctbc_can_parse (text : List Char) : Bool :=
  CTBC_DETECTION_KEYWORDS.any (fun kw => pyIn (pyLower kw) (pyLower text))

/-- Embedding of CathayUnitedParser.can_parse. -/
def cathay_can_parse (text : List Char) : Bool :=
  CATHAY_DETECTION_KEYWORDS.any (fun kw => pyIn (pyLower kw) (pyLower text))

/-- Embedding of TaishinParser.can_parse. -/
def taishin_can_parse (text : List Char) : Bool :=
  TAISHIN_DETECTION_KEYWORDS.any (fun kw => pyIn (pyLower kw) (pyLower text))

/-- Embedding of GenericParser.can_parse, which returns True
unconditionally so that the generic parser acts as the fallback. -/
def generic_can_parse (_ : List Char) : Bool := true

/-! ## Parser selection (parsers init module, get_parser_for_statement) -/

/-- Closed enumeration of the parser classes appearing in the PARSERS
registry of the parsers init module. -/
inductive ParserKind where
  | ctbc
  | cathay
  | taishin
  | generic
deriving DecidableEq, Fintype

/-- Dispatch of can_parse over the parser classes. -/
def parser_can_parse : ParserKind → List Char → Bool
  | .ctbc, t => ctbc_can_parse t
  | .cathay, t => cathay_can_parse t
  | .taishin, t => taishin_can_parse t
  | .generic, t => generic_can_parse t

/-- Detection keyword table of each bank parser class; the generic parser
declares no detection keywords. -/
def detection_keywords : ParserKind → List (List Char)
  | .ctbc => CTBC_DETECTION_KEYWORDS
  | .cathay => CATHAY_DETECTION_KEYWORDS
  | .taishin => TAISHIN_DETECTION_KEYWORDS
  | .generic => []

/-- Embedding of the PARSERS registry of the parsers init module: the three
bank parsers in declaration order followed by the generic fallback. -/
def PARSERS : List ParserKind := [.ctbc, .cathay, .taishin, .generic]

/-- Embedding of get_parser_for_statement: return the first parser of the
registry whose can_parse accepts the text; the trailing branch mirrors the
unreachable final return of a fresh GenericParser. -/
def get_parser_for_statement (text : List Char) : ParserKind :=
  match PARSERS.find? (fun p => parser_can_parse p text) with
  | some p => p
  | none => .generic

/-! ## The minguo date regex of CTBCParser (parsers/ctbc.py) -/

/-- Maximal munch of the regex fragment for zero-or-more whitespace; in the
minguo pattern it is always followed by a non-whitespace requirement, so
greedy matching without backtracking is exact. -/
def skipSpaces : List Char → List Char
  | [] => []
  | c :: t => if isSpaceC c then skipSpaces t else c :: t

/-- Continuation used by matchNum12Lit after a candidate digit group: skip
whitespace, require the literal character, return the remainder. -/
def matchAfterDigits (lit : Char) (rest : List Char) : Option (List Char) :=
  match skipSpaces rest with
  | l :: r => if l = lit then some r else none
  | [] => none

/-- Embedding of a one-or-two digit group followed by optional whitespace
and a literal character, with the backtracking of the regex engine: the
group first tries two digits greedily and falls back to one digit when the
continuation fails. Returns the numeric group value and the remainder. -/
def matchNum12Lit (lit : Char) : List Char → Option (ℕ × List Char)
  | [] => none
  | c1 :: rest1 =>
    if isDigitC c1 then
      match rest1 with
      | c2 :: rest2 =>
        if isDigitC c2 then
          match matchAfterDigits lit rest2 with
          | some r => some (10 * digitVal c1 + digitVal c2, r)
          | none =>
            match matchAfterDigits lit rest1 with
            | some r => some (digitVal c1, r)
            | none => none
        else
          match matchAfterDigits lit rest1 with
          | some r => some (digitVal c1, r)
          | none => none
      | [] =>
        match matchAfterDigits lit rest1 with
        | some r => some (digitVal c1, r)
        | none => none
    else none

/-- Embedding of the final one-or-two digit group of the minguo pattern,
which ends the pattern and therefore matches greedily with no continuation
constraint. -/
def matchNum12End : List Char → Option ℕ
  | [] => none
  | c1 :: rest =>
    if isDigitC c1 then
      match rest with
      | c2 :: _ => if isDigitC c2 then some (10 * digitVal c1 + digitVal c2) else some (digitVal c1)
      | [] => some (digitVal c1)
    else none

/-- Attempt to match the minguo pattern of CTBCParser._parse_taiwan_date at
the head of the input: the two literal characters, whitespace, exactly three
digits (the year group), whitespace, the year marker, whitespace, the month
group with its marker, whitespace, the day group. Returns the three numeric
groups. -/
def matchTaiwanAt (cs : List Char) : Option (ℕ × ℕ × ℕ) :=
  match cs with
  | c0 :: c1 :: rest =>
    if c0 = '民' ∧ c1 = '國' then
      match skipSpaces rest with
      | a :: b :: c :: rest2 =>
        if isDigitC a && isDigitC b && isDigitC c then
          match skipSpaces rest2 with
          | y :: rest3 =>
            if y = '年' then
              match matchNum12Lit '月' (skipSpaces rest3) with
              | some (m, rest4) =>
                match matchNum12End (skipSpaces rest4) with
                | some d => some (100 * digitVal a + 10 * digitVal b + digitVal c, m, d)
                | none => none
              | none => none
            else none
          | [] => none
        else none
      | _ => none
    else none
  | _ => none

/-- Embedding of re.search for the minguo pattern: try every start position
from the left and return the first successful match. -/
def searchTaiwan : List Char → Option (ℕ × ℕ × ℕ)
  | [] => none
  | c :: t =>
    match matchTaiwanAt (c :: t) with
    | some r => some r
    | none => searchTaiwan t

/-- Embedding of CTBCParser._parse_taiwan_date: search for the minguo
pattern, add 1911 to the year group, construct the date, and swallow the
ValueError of an invalid calendar triple by returning None. -/
def ctbc_parse_taiwan_date (text : List Char) : Option Date :=
  match searchTaiwan text with
  | some (ty, m, d) =>
    if date_ok (ty + 1911) m d then some ⟨ty + 1911, m, d⟩ else none
  | none => none

/-! ## Confidence formulas (calculate_confidence of each parser) -/

/-- Embedding of CTBCParser.calculate_confidence: fixed bank weight, card
weight when the card suffix is truthy and not the sentinel, date weights
(date objects are always truthy), the total-amount weight with a penalty of
two tenths when the critical amount is missing, the minimum-due weight, then
round to two decimals and clamp to the unit interval. -/
def ctbc_calculate_confidence (b : ParsedBill) : ℚ :=
  let score : ℚ := 0
  let score := score + 1/10
  let score := if b.card_last_four ≠ [] ∧ b.card_last_four ≠ "0000".toList then score + 1/10 else score
  let score := if dateTruthy b.statement_date then score + 15/100 else score
  let score := if dateTruthy b.due_date then score + 2/10 else score
  let score := if b.total_amount_due ≠ 0 ∧ 0 < b.total_amount_due then score + 3/10 else score - 2/10
  let score := if optQTruthy b.minimum_due then score + 15/100 else score
  max 0 (min 1 (pyRound2 score))

/-- Embedding of CathayUnitedParser.calculate_confidence, identical weights
to the CTBC formula. -/
def cathay_calculate_confidence (b : ParsedBill) : ℚ :=
  let score : ℚ := 0
  let score := score + 1/10
  let score := if b.card_last_four ≠ [] ∧ b.card_last_four ≠ "0000".toList then score + 1/10 else score
  let score := if dateTruthy b.statement_date then score + 15/100 else score
  let score := if dateTruthy b.due_date then score + 2/10 else score
  let score := if b.total_amount_due ≠ 0 ∧ 0 < b.total_amount_due then score + 3/10 else score - 2/10
  let score := if optQTruthy b.minimum_due then score + 15/100 else score
  max 0 (min 1 (pyRound2 score))

/-- Embedding of TaishinParser.calculate_confidence, identical weights to
the CTBC formula. -/
def taishin_calculate_confidence (b : ParsedBill) : ℚ :=
  let score : ℚ := 0
  let score := score + 1/10
  let score := if b.card_last_four ≠ [] ∧ b.card_last_four ≠ "0000".toList then score + 1/10 else score
  let score := if dateTruthy b.statement_date then score + 15/100 else score
  let score := if dateTruthy b.due_date then score + 2/10 else score
  let score := if b.total_amount_due ≠ 0 ∧ 0 < b.total_amount_due then score + 3/10 else score - 2/10
  let score := if optQTruthy b.minimum_due then score + 15/100 else score
  max 0 (min 1 (pyRound2 score))

/-- Embedding of GenericParser.calculate_confidence: smaller weights, a
bank-detection bonus instead of the fixed bank weight, no penalty term, and
the generic cap of six tenths in place of the clamp. -/
def generic_calculate_confidence (b : ParsedBill) : ℚ :=
  let score : ℚ := 0
  let score := if b.bank_name ≠ "Unknown Bank".toList then score + 5/100 else score
  let score := if b.card_last_four ≠ [] ∧ b.card_last_four ≠ "0000".toList then score + 5/100 else score
  let score := if dateTruthy b.statement_date then score + 1/10 else score
  let score := if dateTruthy b.due_date then score + 15/100 else score
  let score := if b.total_amount_due ≠ 0 ∧ 0 < b.total_amount_due then score + 25/100 else score
  let score := if optQTruthy b.minimum_due then score + 1/10 else score
  min (6/10) (pyRound2 score)

/-! ## Extraction outcomes

The shared helpers BaseParser.extract_amount, extract_date and
extract_card_last_four run ordered regex pattern lists through the external
re library over the cleaned text and deliver either a first successful
parse or None. The record below stands for the outcome of those calls for
one parse invocation; theorems quantify over all outcomes, which covers
every input text. -/

/-- Outcomes of the regex extraction helpers for one parse call:
extract_card_last_four over the card pattern table, extract_date over the
statement-date and due-date tables, extract_amount over the total-amount
and minimum-due tables. -/
structure Extraction where
  card_last_four : Option (List Char) := none
  statement_date : Option Date := none
  due_date : Option Date := none
  total_amount : Option ℚ := none
  minimum_due : Option ℚ := none

/-- Embedding of the expression that defaults a falsy extraction result to
the sentinel, as in the card assignment with the or-default in every
parse method; extract_card_last_four never returns an empty string, but the
embedding follows the truthiness test of the source. -/
def orCardSentinel (o : Option (List Char)) : List Char :=
  match o with
  | some s => if s = [] then "0000".toList else s
  | none => "0000".toList

/-- Embedding of the default applied to the extracted total amount: the
source replaces a falsy value (None or Decimal zero) by Decimal zero. -/
def orAmountZero (o : Option ℚ) : ℚ :=
  match o with
  | some a => if a = 0 then 0 else a
  | none => 0

/-- Fixed day offset added to the statement date by CTBCParser.parse when no
due date is extracted. -/
def CTBC_DUE_OFFSET : ℕ := 20

/-- Fixed day offset added to the statement date by CathayUnitedParser.parse
when no due date is extracted. -/
def CATHAY_DUE_OFFSET : ℕ := 15

/-- Fixed day offset added to the statement date by TaishinParser.parse when
no due date is extracted. -/
def TAISHIN_DUE_OFFSET : ℕ := 20

/-! ## The parse methods -/

/-- Embedding of CTBCParser.parse over the extraction outcomes: clean the
text, default the card suffix, fall back to the minguo date and then to the
injected current date for the statement date, default the due date to the
statement date plus the bank offset, default the total amount, derive the
statement month, compute confidence, then track extracted fields. -/
def ctbc_parse (text : List Char) (ext : Extraction) (today : Date) : ParsedBill :=
  let text := clean_text text
  let card_last_four := orCardSentinel ext.card_last_four
  let statement_date? : Option Date :=
    match ext.statement_date with
    | some d => some d
    | none => ctbc_parse_taiwan_date text
  let statement_date := match statement_date? with | some d => d | none => today
  let due_date := match ext.due_date with | some d => d | none => statement_date.addDays CTBC_DUE_OFFSET
  let total_amount := orAmountZero ext.total_amount
  let minimum_due := ext.minimum_due
  let statement_month := formatYM statement_date
  let bill0 : ParsedBill :=
    { bank_name := "CTBC".toList
      card_last_four := card_last_four
      statement_date := statement_date
      statement_month := statement_month
      due_date := due_date
      total_amount_due := total_amount
      minimum_due := minimum_due
      currency := "TWD".toList
      confidence_score := 0
      extracted_fields := []
      raw_text := text.take 1000 }
  let bill1 := { bill0 with confidence_score := ctbc_calculate_confidence bill0 }
  let fields :=
    (if card_last_four ≠ "0000".toList then ["card_last_four".toList] else []) ++
    (if dateTruthy statement_date then ["statement_date".toList] else []) ++
    (if dateTruthy due_date then ["due_date".toList] else []) ++
    (if total_amount ≠ 0 ∧ 0 < total_amount then ["total_amount_due".toList] else []) ++
    (if optQTruthy minimum_due then ["minimum_due".toList] else [])
  { bill1 with extracted_fields := fields }

/-- Embedding of CathayUnitedParser.parse; as the CTBC variant but with no
minguo fallback and the Cathay due-date offset. -/
def cathay_parse (text : List Char) (ext : Extraction) (today : Date) : ParsedBill :=
  let text := clean_text text
  let card_last_four := orCardSentinel ext.card_last_four
  let statement_date := match ext.statement_date with | some d => d | none => today
  let due_date := match ext.due_date with | some d => d | none => statement_date.addDays CATHAY_DUE_OFFSET
  let total_amount := orAmountZero ext.total_amount
  let minimum_due := ext.minimum_due
  let statement_month := formatYM statement_date
  let bill0 : ParsedBill :=
    { bank_name := "Cathay United Bank".toList
      card_last_four := card_last_four
      statement_date := statement_date
      statement_month := statement_month
      due_date := due_date
      total_amount_due := total_amount
      minimum_due := minimum_due
      currency := "TWD".toList
      confidence_score := 0
      extracted_fields := []
      raw_text := text.take 1000 }
  let bill1 := { bill0 with confidence_score := cathay_calculate_confidence bill0 }
  let fields :=
    (if card_last_four ≠ "0000".toList then ["card_last_four".toList] else []) ++
    (if dateTruthy statement_date then ["statement_date".toList] else []) ++
    (if dateTruthy due_date then ["due_date".toList] else []) ++
    (if total_amount ≠ 0 ∧ 0 < total_amount then ["total_amount_due".toList] else []) ++
    (if optQTruthy minimum_due then ["minimum_due".toList] else [])
  { bill1 with extracted_fields := fields }

/-- Embedding of TaishinParser.parse; as the Cathay variant but with the
Taishin bank name and due-date offset. -/
def taishin_parse (text : List Char) (ext : Extraction) (today : Date) : ParsedBill :=
  let text := clean_text text
  let card_last_four := orCardSentinel ext.card_last_four
  let statement_date := match ext.statement_date with | some d => d | none => today
  let due_date := match ext.due_date with | some d => d | none => statement_date.addDays TAISHIN_DUE_OFFSET
  let total_amount := orAmountZero ext.total_amount
  let minimum_due := ext.minimum_due
  let statement_month := formatYM statement_date
  let bill0 : ParsedBill :=
    { bank_name := "Taishin Bank".toList
      card_last_four := card_last_four
      statement_date := statement_date
      statement_month := statement_month
      due_date := due_date
      total_amount_due := total_amount
      minimum_due := minimum_due
      currency := "TWD".toList
      confidence_score := 0
      extracted_fields := []
      raw_text := text.take 1000 }
  let bill1 := { bill0 with confidence_score := taishin_calculate_confidence bill0 }
  let fields :=
    (if card_last_four ≠ "0000".toList then ["card_last_four".toList] else []) ++
    (if dateTruthy statement_date then ["statement_date".toList] else []) ++
    (if dateTruthy due_date then ["due_date".toList] else []) ++
    (if total_amount ≠ 0 ∧ 0 < total_amount then ["total_amount_due".toList] else []) ++
    (if optQTruthy minimum_due then ["minimum_due".toList] else [])
  { bill1 with extracted_fields := fields }

/-- Embedding of GenericParser.parse: detect the bank for labelling, apply
the same defaults with a twenty-day offset, keep only five hundred
characters of raw text, cap the confidence at six tenths, and replace the
field list by the review sentinel when the capped confidence is below one
half. A fresh parser instance starts with the unknown bank name, as in both
call sites of the sources. -/
def generic_parse (text : List Char) (ext : Extraction) (today : Date) : ParsedBill :=
  let text := clean_text text
  let bank_name :=
    match detect_bank text with
    | some b => b
    | none => "Unknown Bank".toList
  let card_last_four := orCardSentinel ext.card_last_four
  let statement_date := match ext.statement_date with | some d => d | none => today
  let due_date := match ext.due_date with | some d => d | none => statement_date.addDays 20
  let total_amount := orAmountZero ext.total_amount
  let minimum_due := ext.minimum_due
  let statement_month := formatYM statement_date
  let bill0 : ParsedBill :=
    { bank_name := bank_name
      card_last_four := card_last_four
      statement_date := statement_date
      statement_month := statement_month
      due_date := due_date
      total_amount_due := total_amount
      minimum_due := minimum_due
      currency := "TWD".toList
      confidence_score := 0
      extracted_fields := []
      raw_text := text.take 500 }
  let bill1 := { bill0 with confidence_score := min (6/10) (generic_calculate_confidence bill0) }
  if bill1.confidence_score < 1/2 then { bill1 with extracted_fields := ["needs_review".toList] }
  else bill1

/-! ## PDF and OCR services (services/pdf_service.py, services/ocr_service.py) -/

/-- Abstraction of a PDF document as seen through the fitz library: the list
of per-page embedded text layers, and whether opening and reading the
document succeeds. -/
structure PdfDoc where
  pages : List (List Char) := []
  ok : Bool := true

/-- Result shape of PDFExtractionService.extract_text. -/
structure PdfTextResult where
  success : Bool
  text : List Char

/-- Embedding of PDFExtractionService.extract_text: concatenate the text of
every page with newline separators; any fitz failure yields an unsuccessful
result with empty text. -/
def pdf_extract_text (pdf : PdfDoc) : PdfTextResult :=
  if pdf.ok then { success := true, text := List.intercalate "\n".toList pdf.pages }
  else { success := false, text := [] }

/-- Outcome of one OCR engine invocation (OCRService.extract_from_pdf or
extract_from_image), an external service. -/
structure OcrOutcome where
  success : Bool := true
  text : List Char := []
  errmsg : List Char := []

/-- Embedding of OCRService.is_scanned_pdf: concatenate the embedded text of
the first three pages with no separator, strip it, and classify the document
as scanned when fewer than one hundred characters remain; a fitz failure is
treated as scanned. -/
def is_scanned_pdf (pdf : PdfDoc) : Bool :=
  if pdf.ok then decide ((pyStrip (pdf.pages.take 3).flatten).length < 100)
  else true

/-- Embedding of extract_from_pdf (tasks/parse_statement.py): return the
direct text layer when extraction succeeded with strictly more than one
hundred characters; otherwise consult is_scanned_pdf and, for a scanned
document with a successful OCR run, return the OCR text; in every other
case return the direct extraction text. -/
def extract_from_pdf (pdf : PdfDoc) (ocr : OcrOutcome) : List Char :=
  let result := pdf_extract_text pdf
  if result.success = true ∧ 100 < result.text.length then result.text
  else if is_scanned_pdf pdf then
    (if ocr.success then ocr.text else result.text)
  else result.text

/-- Embedding of extract_from_image (tasks/parse_statement.py): the OCR text
on success, otherwise an exception carrying the OCR error message. -/
def extract_from_image (ocr : OcrOutcome) : Except (List Char) (List Char) :=
  if ocr.success then .ok ocr.text
  else .error ("OCR failed: ".toList ++ ocr.errmsg)

/-! ## Worker settings and the orchestrating task (core/config.py,
tasks/parse_statement.py) -/

/-- Embedding of the processing fields of Settings (worker core/config.py):
the review threshold is an environment-injectable value with the declared
default, and the OCR language set is an injectable string. -/
structure Settings where
  confidence_threshold : ℚ := 80/100
  ocr_language : List Char := "chi_tra+chi_sim+eng".toList

/-- Settings instance with every field left at its declared default, as
produced by get_settings with no environment overrides. -/
def defaultSettings : Settings := {}

/-- Embedding of the SourceArtifact fields read by the task. The model in
models/models.py declares exactly original_filename, storage_key, mime_type,
file_size_bytes, processing_status, processing_error, checksum and
timestamp columns; it declares no card_id column. -/
structure SourceArtifact where
  mime_type : List Char

/-- Inputs of one task invocation that come from outside the pipeline code:
the artifact row looked up by id, whether the storage download returns
content, the PDF document as fitz sees it, and the outcomes of the two
possible OCR calls. -/
structure TaskEnv where
  artifact : Option SourceArtifact := none
  download_ok : Bool := true
  pdf : PdfDoc := {}
  pdf_ocr : OcrOutcome := {}
  image_ocr : OcrOutcome := {}

/-- Result of one run of parse_statement_task: the error dictionary returned
when the artifact id resolves to no row, the success dictionary with the
confidence and review flag, the error dictionary returned once the retry
budget is exhausted, or a scheduled retry with its countdown in seconds. -/
inductive TaskResult where
  | missingArtifact
  | success (confidence : ℚ) (requires_review : Bool)
  | errorResult (message : List Char)
  | retryScheduled (countdown : ℕ)
deriving DecidableEq

/-- Embedding of parse_statement_task (tasks/parse_statement.py). The
returned pair carries the task result and the processing_status values
written to the artifact row, in order. The body mirrors the source: return
the error dictionary when the artifact is missing; write the processing
status; raise on a failed download; dispatch on the declared media type,
raising on any type that is neither PDF nor an image; after a successful
extraction the source calls parse_bill_data with artifact.card_id as second
argument, and the SourceArtifact model declares no card_id column, so this
attribute access raises AttributeError before any parsing runs (were it to
proceed, the Bill construction would next evaluate parsed_bill.raw_fields,
an attribute the ParsedBill dataclass does not define either); every raised
exception reaches the shared handler, which marks the artifact failed and
schedules a retry with a sixty-second countdown while fewer than three
retries have happened, returning the error dictionary otherwise. -/
def parse_statement_task (env : TaskEnv) (settings : Settings) (retries : ℕ) :
    TaskResult × List (List Char) :=
  match env.artifact with
  | none => (.missingArtifact, [])
  | some artifact =>
    let statuses := ["processing".toList]
    let step : Except (List Char) (List Char) :=
      if env.download_ok then
        if artifact.mime_type = "application/pdf".toList then
          .ok (extract_from_pdf env.pdf env.pdf_ocr)
        else if "image/".toList.isPrefixOf artifact.mime_type then
          extract_from_image env.image_ocr
        else
          .error ("Unsupported file type: ".toList ++ artifact.mime_type)
      else .error "Failed to download file from storage".toList
    let _ := settings.confidence_threshold
    match step with
    | .ok _text =>
      let msg := "AttributeError: card_id".toList
      if retries < 3 then (.retryScheduled 60, statuses ++ ["failed".toList])
      else (.errorResult msg, statuses ++ ["failed".toList])
    | .error msg =>
      if retries < 3 then (.retryScheduled 60, statuses ++ ["failed".toList])
      else (.errorResult msg, statuses ++ ["failed".toList])

/-! ## Concrete inputs used by witnesses and counterexamples -/

/-- Bill with every confidence-relevant field present. -/
def billAllFields : ParsedBill :=
  { bank_name := "CTBC".toList
    card_last_four := ['1', '2', '3', '4']
    statement_date := ⟨2024, 1, 15⟩
    statement_month := "2024-01".toList
    due_date := ⟨2024, 2, 5⟩
    total_amount_due := 12345
    minimum_due := some 1000
    currency := "TWD".toList
    confidence_score := 0
    extracted_fields := []
    raw_text := [] }

/-- Bill identical to billAllFields except that the total amount carries the
zero sentinel. -/
def billMissingTotalOnly : ParsedBill :=
  { billAllFields with total_amount_due := 0 }

/-- Bill identical to billAllFields except that the minimum due is absent. -/
def billMissingMinimumOnly : ParsedBill :=
  { billAllFields with minimum_due := none }

/-- Two-digit zero-padded decimal rendering of a number below one hundred. -/
def render2 (n : ℕ) : List Char := [digitChar (n / 10), digitChar (n % 10)]

/-- Three-digit decimal rendering of a number between one hundred and nine
hundred ninety-nine. -/
def render3 (n : ℕ) : List Char :=
  [digitChar (n / 100), digitChar (n / 10 % 10), digitChar (n % 10)]

/-- Canonical minguo date string of the documented form: the era marker, a
space, the three-digit minguo year, the year marker, the two-digit month
with its marker, the two-digit day with its marker, single spaces between
fields as in the documented example. -/
def minguoChars (y m d : ℕ) : List Char :=
  "民國 ".toList ++ render3 y ++ " 年 ".toList ++ render2 m ++
    " 月 ".toList ++ render2 d ++ " 日".toList

/-- Task environment holding an artifact with a declared media type that is
neither PDF nor an image. -/
def unsupportedEnv : TaskEnv :=
  { artifact := some { mime_type := "text/plain".toList } }

/-- Task environment holding a PDF artifact whose text layer extracts
successfully with ample text, so that the run reaches the call of
parse_bill_data. -/
def completableEnv : TaskEnv :=
  { artifact := some { mime_type := "application/pdf".toList }
    pdf := { pages := [List.replicate 150 'a'], ok := true } }

/-- PDF whose first three pages carry no embedded text while a later page
carries more than one hundred characters. -/
def scannedHeadPdf : PdfDoc :=
  { pages := [[], [], [], List.replicate 101 'a'], ok := true }

/-- PDF with a single page of ample embedded text. -/
def fullTextPdf : PdfDoc :=
  { pages := [List.replicate 150 'a'], ok := true }

/-- Successful OCR outcome with a recognizable text. -/
def someOcr : OcrOutcome := { success := true, text := ['B'], errmsg := [] }

/-! ## Helper lemmas -/

/-- Rounding a nonnegative rational to two decimals yields a nonnegative
rational. -/
theorem aux_pyRound2_nonneg (q : ℚ) (h : 0 ≤ q) : 0 ≤ pyRound2 q := by
  unfold pyRound2 ratFloor
  have hnum : 0 ≤ (q * 100).num := Rat.num_nonneg.mpr (by positivity)
  have hf : 0 ≤ Int.fdiv (q * 100).num ((q * 100).den : ℤ) :=
    Int.fdiv_nonneg hnum (Int.ofNat_nonneg _)
  have hfQ : (0 : ℚ) ≤ (Int.fdiv (q * 100).num ((q * 100).den : ℤ) : ℚ) := by
    exact_mod_cast hf
  dsimp only
  split_ifs <;> (refine div_nonneg ?_ (by norm_num)) <;> push_cast <;> linarith [hfQ]

/-- The clamp applied by the bank confidence formulas lands in the unit
interval for every argument. -/
theorem aux_clamp01_mem (x : ℚ) : 0 ≤ max 0 (min 1 x) ∧ max 0 (min 1 x) ≤ 1 :=
  ⟨le_max_left 0 _, max_le (by norm_num) (min_le_left 1 _)⟩

/-- The raw weighted score of the generic confidence formula is nonnegative:
every term of the sum is a conditional nonnegative bonus and there is no
penalty term. -/
theorem aux_generic_conf_nonneg (b : ParsedBill) :
    0 ≤ generic_calculate_confidence b := by
  unfold generic_calculate_confidence
  dsimp only
  refine le_min (by norm_num) (aux_pyRound2_nonneg _ ?_)
  split_ifs <;> norm_num

/-- The generic confidence formula never exceeds six tenths. -/
theorem aux_generic_conf_le (b : ParsedBill) :
    generic_calculate_confidence b ≤ 6/10 := by
  unfold generic_calculate_confidence
  dsimp only
  exact min_le_left _ _

/-! ## Claim theorems -/

/-- C2: for every input (quantified through every outcome of the regex
extraction layer), GenericParser.parse returns a bill whose confidence score
is at most six tenths, and the weighted-field formula
GenericParser.calculate_confidence is itself hard-capped at six tenths for
every bill. -/
theorem C2_generic_confidence_capped :
    (∀ (text : List Char) (ext : Extraction) (today : Date),
      (generic_parse text ext today).confidence_score ≤ 6/10) ∧
    (∀ b : ParsedBill, generic_calculate_confidence b ≤ 6/10) := by
  constructor
  · intro text ext today
    unfold generic_parse
    dsimp only
    split_ifs <;> exact min_le_left _ _
  · exact aux_generic_conf_le

/-- C3: every parser (the three bank parsers and the generic fallback)
returns a bill whose confidence score lies in the closed unit interval, for
every input text, extraction outcome and current date. -/
theorem C3_confidence_in_unit_interval :
    ∀ (text : List Char) (ext : Extraction) (today : Date),
      (0 ≤ (ctbc_parse text ext today).confidence_score ∧
        (ctbc_parse text ext today).confidence_score ≤ 1) ∧
      (0 ≤ (cathay_parse text ext today).confidence_score ∧
        (cathay_parse text ext today).confidence_score ≤ 1) ∧
      (0 ≤ (taishin_parse text ext today).confidence_score ∧
        (taishin_parse text ext today).confidence_score ≤ 1) ∧
      (0 ≤ (generic_parse text ext today).confidence_score ∧
        (generic_parse text ext today).confidence_score ≤ 1) := by
  intro text ext today
  refine ⟨?_, ?_, ?_, ?_⟩
  · unfold ctbc_parse ctbc_calculate_confidence
    dsimp only
    exact aux_clamp01_mem _
  · unfold cathay_parse cathay_calculate_confidence
    dsimp only
    exact aux_clamp01_mem _
  · unfold taishin_parse taishin_calculate_confidence
    dsimp only
    exact aux_clamp01_mem _
  · unfold generic_parse
    dsimp only
    constructor
    · split_ifs <;>
        exact le_min (by norm_num) (aux_generic_conf_nonneg _)
    · split_ifs <;>
        exact le_trans (min_le_left _ _) (by norm_num)

/-- C4: in every bank confidence formula the missing total amount draws an
explicit penalty of two tenths on top of the forgone three-tenths bonus, so
that zeroing the total amount of any bill lowers the score by exactly one
half; a bill with every field present scores exactly one, and a bill missing
only the total amount scores one half against eighty-five hundredths for a
bill missing only the minimum due, strictly lower for all three banks. -/
theorem C4_total_amount_penalty :
    (∀ b : ParsedBill, 0 < b.total_amount_due →
      ctbc_calculate_confidence { b with total_amount_due := 0 } =
          ctbc_calculate_confidence b - 1/2 ∧
        cathay_calculate_confidence { b with total_amount_due := 0 } =
          cathay_calculate_confidence b - 1/2 ∧
        taishin_calculate_confidence { b with total_amount_due := 0 } =
          taishin_calculate_confidence b - 1/2) ∧
    (ctbc_calculate_confidence billAllFields = 1 ∧
      cathay_calculate_confidence billAllFields = 1 ∧
      taishin_calculate_confidence billAllFields = 1) ∧
    (ctbc_calculate_confidence billMissingTotalOnly = 1/2 ∧
      ctbc_calculate_confidence billMissingMinimumOnly = 85/100) ∧
    (ctbc_calculate_confidence billMissingTotalOnly <
        ctbc_calculate_confidence billMissingMinimumOnly ∧
      cathay_calculate_confidence billMissingTotalOnly <
        cathay_calculate_confidence billMissingMinimumOnly ∧
      taishin_calculate_confidence billMissingTotalOnly <
        taishin_calculate_confidence billMissingMinimumOnly) := by
  have hca : ∀ b, cathay_calculate_confidence b = ctbc_calculate_confidence b :=
    fun _ => rfl
  have hta : ∀ b, taishin_calculate_confidence b = ctbc_calculate_confidence b :=
    fun _ => rfl
  have hpen : ∀ b : ParsedBill, 0 < b.total_amount_due →
      ctbc_calculate_confidence { b with total_amount_due := 0 } =
        ctbc_calculate_confidence b - 1/2 := by
    intro b h
    unfold ctbc_calculate_confidence
    dsimp only
    rw [if_neg (show ¬((0:ℚ) ≠ 0 ∧ 0 < (0:ℚ)) by norm_num)]
    rw [if_pos (show b.total_amount_due ≠ 0 ∧ 0 < b.total_amount_due from ⟨ne_of_gt h, h⟩)]
    rw [if_pos (show dateTruthy b.statement_date from trivial)]
    rw [if_pos (show dateTruthy b.due_date from trivial)]
    split_ifs <;> norm_num [pyRound2, ratFloor, min_def, max_def]
  have hfull : ctbc_calculate_confidence billAllFields = 1 := by
    unfold ctbc_calculate_confidence
    dsimp only
    rw [if_pos (show billAllFields.card_last_four ≠ [] ∧
          billAllFields.card_last_four ≠ "0000".toList by constructor <;> decide)]
    rw [if_pos (show dateTruthy billAllFields.statement_date from trivial)]
    rw [if_pos (show dateTruthy billAllFields.due_date from trivial)]
    rw [if_pos (show billAllFields.total_amount_due ≠ 0 ∧
          0 < billAllFields.total_amount_due by norm_num [billAllFields])]
    rw [if_pos (show optQTruthy billAllFields.minimum_due by
          norm_num [billAllFields, optQTruthy])]
    norm_num [pyRound2, ratFloor, min_def, max_def]
  have hmt : ctbc_calculate_confidence billMissingTotalOnly = 1/2 := by
    unfold ctbc_calculate_confidence
    dsimp only
    rw [if_pos (show billMissingTotalOnly.card_last_four ≠ [] ∧
          billMissingTotalOnly.card_last_four ≠ "0000".toList by constructor <;> decide)]
    rw [if_pos (show dateTruthy billMissingTotalOnly.statement_date from trivial)]
    rw [if_pos (show dateTruthy billMissingTotalOnly.due_date from trivial)]
    rw [if_neg (show ¬(billMissingTotalOnly.total_amount_due ≠ 0 ∧
          0 < billMissingTotalOnly.total_amount_due) by
          norm_num [billMissingTotalOnly, billAllFields])]
    rw [if_pos (show optQTruthy billMissingTotalOnly.minimum_due by
          norm_num [billMissingTotalOnly, billAllFields, optQTruthy])]
    norm_num [pyRound2, ratFloor, min_def, max_def]
  have hmm : ctbc_calculate_confidence billMissingMinimumOnly = 85/100 := by
    unfold ctbc_calculate_confidence
    dsimp only
    rw [if_pos (show billMissingMinimumOnly.card_last_four ≠ [] ∧
          billMissingMinimumOnly.card_last_four ≠ "0000".toList by constructor <;> decide)]
    rw [if_pos (show dateTruthy billMissingMinimumOnly.statement_date from trivial)]
    rw [if_pos (show dateTruthy billMissingMinimumOnly.due_date from trivial)]
    rw [if_pos (show billMissingMinimumOnly.total_amount_due ≠ 0 ∧
          0 < billMissingMinimumOnly.total_amount_due by
          norm_num [billMissingMinimumOnly, billAllFields])]
    rw [if_neg (show ¬optQTruthy billMissingMinimumOnly.minimum_due by
          norm_num [billMissingMinimumOnly, billAllFields, optQTruthy])]
    norm_num [pyRound2, ratFloor, min_def, max_def]
  refine ⟨fun b h => ⟨hpen b h, ?_, ?_⟩, ⟨hfull, ?_, ?_⟩, ⟨hmt, hmm⟩, ?_, ?_, ?_⟩
  · rw [hca, hca, hpen b h]
  · rw [hta, hta, hpen b h]
  · rw [hca, hfull]
  · rw [hta, hfull]
  · rw [hmt, hmm]; norm_num
  · rw [hca, hca, hmt, hmm]; norm_num
  · rw [hta, hta, hmt, hmm]; norm_num

/-- Witness for C4: the penalty equality applied to the concrete bill with
every field present. -/
theorem C4_total_amount_penalty_witness :
    ctbc_calculate_confidence { billAllFields with total_amount_due := 0 } =
      ctbc_calculate_confidence billAllFields - 1/2 :=
  (C4_total_amount_penalty.1 billAllFields (by norm_num [billAllFields])).1

/-- C10: every bank parser appends the statement_date and due_date markers
to the extracted_fields list of every returned bill, regardless of whether a
date was extracted, because the default heuristics run before the
field-tracking tests and Python date objects are always truthy. -/
theorem C10_date_fields_always_tracked :
    ∀ (text : List Char) (ext : Extraction) (today : Date),
      ("statement_date".toList ∈ (ctbc_parse text ext today).extracted_fields ∧
        "due_date".toList ∈ (ctbc_parse text ext today).extracted_fields) ∧
      ("statement_date".toList ∈ (cathay_parse text ext today).extracted_fields ∧
        "due_date".toList ∈ (cathay_parse text ext today).extracted_fields) ∧
      ("statement_date".toList ∈ (taishin_parse text ext today).extracted_fields ∧
        "due_date".toList ∈ (taishin_parse text ext today).extracted_fields) := by
  intro text ext today
  refine ⟨?_, ?_, ?_⟩ <;>
    [unfold ctbc_parse; unfold cathay_parse; unfold taishin_parse] <;>
    dsimp only <;>
    constructor <;>
    simp [dateTruthy, List.mem_append]

/-- C8: with no due date extracted, every bank parser sets the due date to
the statement date of the returned bill plus its fixed bank-specific offset;
the offsets are twenty days for CTBC, fifteen for Cathay United and twenty
for Taishin, each within the fifteen-to-twenty-day range. -/
theorem C8_due_date_default_offset :
    (CTBC_DUE_OFFSET = 20 ∧ CATHAY_DUE_OFFSET = 15 ∧ TAISHIN_DUE_OFFSET = 20 ∧
      15 ≤ CTBC_DUE_OFFSET ∧ CTBC_DUE_OFFSET ≤ 20 ∧
      15 ≤ CATHAY_DUE_OFFSET ∧ CATHAY_DUE_OFFSET ≤ 20 ∧
      15 ≤ TAISHIN_DUE_OFFSET ∧ TAISHIN_DUE_OFFSET ≤ 20) ∧
    ∀ (text : List Char) (ext : Extraction) (today : Date),
      ext.due_date = none →
      (ctbc_parse text ext today).due_date =
          ((ctbc_parse text ext today).statement_date).addDays CTBC_DUE_OFFSET ∧
        (cathay_parse text ext today).due_date =
          ((cathay_parse text ext today).statement_date).addDays CATHAY_DUE_OFFSET ∧
        (taishin_parse text ext today).due_date =
          ((taishin_parse text ext today).statement_date).addDays TAISHIN_DUE_OFFSET := by
  refine ⟨by norm_num [CTBC_DUE_OFFSET, CATHAY_DUE_OFFSET, TAISHIN_DUE_OFFSET], ?_⟩
  intro text ext today h
  refine ⟨?_, ?_, ?_⟩ <;>
    [unfold ctbc_parse; unfold cathay_parse; unfold taishin_parse] <;>
    dsimp only <;>
    rw [h]

/-- Witness for C8: the default-offset equations at the empty text, the
empty extraction outcome and a concrete current date. -/
theorem C8_due_date_default_offset_witness :
    (ctbc_parse [] {} ⟨2024, 1, 15⟩).due_date =
        ((ctbc_parse [] {} ⟨2024, 1, 15⟩).statement_date).addDays CTBC_DUE_OFFSET ∧
      (cathay_parse [] {} ⟨2024, 1, 15⟩).due_date =
        ((cathay_parse [] {} ⟨2024, 1, 15⟩).statement_date).addDays CATHAY_DUE_OFFSET ∧
      (taishin_parse [] {} ⟨2024, 1, 15⟩).due_date =
        ((taishin_parse [] {} ⟨2024, 1, 15⟩).statement_date).addDays TAISHIN_DUE_OFFSET :=
  C8_due_date_default_offset.2 [] {} ⟨2024, 1, 15⟩ rfl

/-- C6: the registry lists the parsers in the declared priority order with
the generic fallback last; the generic can_parse accepts every text; the
selector always returns a parser whose can_parse accepts the text; and every
text containing at least one detection keyword of one bank and no detection
keyword of any other bank selects that bank rather than the generic
fallback. -/
theorem C6_selector_priority_and_keywords :
    (∀ text, generic_can_parse text = true) ∧
    PARSERS = [ParserKind.ctbc, ParserKind.cathay, ParserKind.taishin, ParserKind.generic] ∧
    (∀ text, parser_can_parse (get_parser_for_statement text) text = true) ∧
    (∀ (b : ParserKind) (text : List Char), b ≠ ParserKind.generic →
      (∃ k ∈ detection_keywords b, pyIn (pyLower k) (pyLower text) = true) →
      (∀ b' : ParserKind, b' ≠ ParserKind.generic → b' ≠ b →
        ∀ k ∈ detection_keywords b', pyIn (pyLower k) (pyLower text) = false) →
      get_parser_for_statement text = b) := by
  refine ⟨fun _ => rfl, rfl, ?_, ?_⟩
  · intro text
    unfold get_parser_for_statement PARSERS
    by_cases h1 : ctbc_can_parse text = true
    · simp [List.find?, parser_can_parse, h1]
    · by_cases h2 : cathay_can_parse text = true
      · simp [List.find?, parser_can_parse, h1, h2]
      · by_cases h3 : taishin_can_parse text = true
        · simp [List.find?, parser_can_parse, h1, h2, h3]
        · simp [List.find?, parser_can_parse, h1, h2, h3, generic_can_parse]
  · intro b text hb hex hothers
    have hof : ∀ b' : ParserKind, b' ≠ ParserKind.generic → b' ≠ b →
        parser_can_parse b' text = false := by
      intro b' hg hne
      have hk := hothers b' hg hne
      cases b' <;>
        simp only [parser_can_parse, ctbc_can_parse, cathay_can_parse,
          taishin_can_parse, List.any_eq_false] <;>
        first
          | (exact absurd rfl hg)
          | (intro k hkmem; simp [hk k hkmem])
    have hon : parser_can_parse b text = true := by
      obtain ⟨k, hkmem, hkin⟩ := hex
      cases b <;>
        simp only [parser_can_parse, ctbc_can_parse, cathay_can_parse,
          taishin_can_parse, generic_can_parse, List.any_eq_true] <;>
        first
          | rfl
          | exact ⟨k, hkmem, hkin⟩
    cases b with
    | ctbc =>
      unfold get_parser_for_statement PARSERS
      simp [List.find?, hon]
    | cathay =>
      have hc := hof ParserKind.ctbc (by simp) (by simp)
      unfold get_parser_for_statement PARSERS
      simp [List.find?, parser_can_parse] at hon hc ⊢
      simp [hon, hc]
    | taishin =>
      have hc := hof ParserKind.ctbc (by simp) (by simp)
      have hy := hof ParserKind.cathay (by simp) (by simp)
      unfold get_parser_for_statement PARSERS
      simp [List.find?, parser_can_parse] at hon hc hy ⊢
      simp [hon, hc, hy]
    | generic => exact absurd rfl hb

/-- Witness for C6: a text consisting of exactly one Taishin keyword and
containing no CTBC and no Cathay keyword selects the Taishin parser, the
third entry of the priority list, rather than the generic fallback. -/
theorem C6_selector_priority_and_keywords_witness :
    get_parser_for_statement "台新".toList = ParserKind.taishin :=
  C6_selector_priority_and_keywords.2.2.2 ParserKind.taishin "台新".toList
    (by decide)
    ⟨"台新".toList, by decide, by decide⟩
    (by decide)

/-- C5 counterexample: an artifact whose declared media type is neither PDF
nor an image is marked failed on the first attempt, but a retry with a
sixty-second countdown is scheduled for it, contradicting the claim that no
retry is scheduled for this error class. -/
theorem C5_counterexample_retry_is_scheduled :
    parse_statement_task unsupportedEnv defaultSettings 0 =
      (TaskResult.retryScheduled 60, ["processing".toList, "failed".toList]) := by
  rfl

/-- C5 as amended: an unsupported declared media type raises the same
exception class as every other failure, so the artifact is marked failed
and the task is retried with the shared sixty-second backoff while fewer
than three retries have happened; only after the retry budget is exhausted
does the run return the unsupported-type error permanently. -/
theorem C5_unsupported_type_failed_and_retried :
    ∀ (env : TaskEnv) (a : SourceArtifact) (settings : Settings) (retries : ℕ),
      env.artifact = some a → env.download_ok = true →
      a.mime_type ≠ "application/pdf".toList →
      "image/".toList.isPrefixOf a.mime_type = false →
      parse_statement_task env settings retries =
        (if retries < 3 then TaskResult.retryScheduled 60
          else TaskResult.errorResult ("Unsupported file type: ".toList ++ a.mime_type),
          ["processing".toList, "failed".toList]) := by
  intro env a settings retries hart hdl hmime hpre
  unfold parse_statement_task
  rw [hart]
  dsimp only
  rw [if_pos hdl, if_neg hmime]
  rw [if_neg (show ¬("image/".toList.isPrefixOf a.mime_type = true) by
        simp only [← List.isPrefixOf_iff_prefix, Bool.not_eq_true]
        simpa using hpre)]
  split_ifs <;> rfl

/-- Witness for C5: the amended statement applied to the concrete artifact
with a plain-text media type on its first attempt. -/
theorem C5_unsupported_type_failed_and_retried_witness :
    parse_statement_task unsupportedEnv defaultSettings 1 =
      (TaskResult.retryScheduled 60, ["processing".toList, "failed".toList]) := by
  have h := C5_unsupported_type_failed_and_retried unsupportedEnv
    { mime_type := "text/plain".toList } defaultSettings 1 rfl rfl (by decide) (by decide)
  simpa using h

/-- C1: the review threshold defaults to eighty hundredths and is injectable
through Settings, and the orchestrator computes requires_review as the
comparison of the confidence with that threshold; but the success path of
parse_statement_task never completes, because evaluating artifact.card_id in
the call of parse_bill_data raises AttributeError (SourceArtifact declares
no card_id column, and the Bill construction would next read the undefined
parsed_bill.raw_fields), so every run ends in a retry or an error and no
bill record carrying the flag is ever created: here shown at a concrete
valid PDF artifact on its first attempt, and in general for every
environment, settings and retry count. -/
theorem C1_no_completed_bill_is_ever_produced :
    defaultSettings.confidence_threshold = 80/100 ∧
    (parse_statement_task completableEnv defaultSettings 0).1 =
      TaskResult.retryScheduled 60 ∧
    ∀ (env : TaskEnv) (settings : Settings) (retries : ℕ) (c : ℚ) (rr : Bool),
      (parse_statement_task env settings retries).1 ≠ TaskResult.success c rr := by
  refine ⟨rfl, by rfl, ?_⟩
  intro env settings retries c rr
  unfold parse_statement_task
  rcases env.artifact with _ | a
  · simp
  · dsimp only
    split <;> split <;> simp

/-- C9 counterexample: a PDF whose first three pages strip to fewer than one
hundred characters, so that is_scanned_pdf classifies it as scanned, but
whose full text layer exceeds one hundred characters; extract_from_pdf
returns the direct text layer and never routes it through OCR, contradicting
the unconditional reading of the scanned-routing sentence. -/
theorem C9_counterexample_scanned_head_not_ocr :
    (pyStrip (scannedHeadPdf.pages.take 3).flatten).length < 100 ∧
      is_scanned_pdf scannedHeadPdf = true ∧
      extract_from_pdf scannedHeadPdf someOcr ≠ someOcr.text ∧
      extract_from_pdf scannedHeadPdf someOcr = (pdf_extract_text scannedHeadPdf).text := by
  refine ⟨by decide, by decide, by decide, rfl⟩

/-- C9 as amended: a successful direct extraction of strictly more than one
hundred characters is returned as-is with the OCR outcome never consulted;
the scanned classification of the first three pages is consulted only when
the direct extraction fails or yields at most one hundred characters, and in
that case a scanned document with a successful OCR run is routed through the
OCR path. -/
theorem C9_pdf_text_or_ocr_routing :
    ∀ (pdf : PdfDoc) (ocr : OcrOutcome),
      ((pdf_extract_text pdf).success = true → 100 < (pdf_extract_text pdf).text.length →
        extract_from_pdf pdf ocr = (pdf_extract_text pdf).text) ∧
      (¬((pdf_extract_text pdf).success = true ∧ 100 < (pdf_extract_text pdf).text.length) →
        is_scanned_pdf pdf = true → ocr.success = true →
        extract_from_pdf pdf ocr = ocr.text) := by
  intro pdf ocr
  constructor
  · intro h1 h2
    unfold extract_from_pdf
    rw [if_pos ⟨h1, h2⟩]
  · intro hn hs hocr
    unfold extract_from_pdf
    rw [if_neg hn]
    rw [if_pos (show is_scanned_pdf pdf = true from hs)]
    rw [if_pos (show ocr.success = true from hocr)]

set_option maxRecDepth 8000 in
/-- Witness for C9: the routing equations applied to a concrete text-layer
PDF with ample embedded text, discharging both hypotheses of the first
conjunct. -/
theorem C9_pdf_text_or_ocr_routing_witness :
    extract_from_pdf fullTextPdf someOcr = (pdf_extract_text fullTextPdf).text :=
  (C9_pdf_text_or_ocr_routing fullTextPdf someOcr).1 (by rfl) (by decide)

/-- Digit characters satisfy the digit class test. -/
theorem aux_isDigitC_digitChar (k : ℕ) (hk : k ≤ 9) : isDigitC (digitChar k) = true := by
  interval_cases k <;> decide

/-- Digit characters are not whitespace. -/
theorem aux_isSpaceC_digitChar (k : ℕ) (hk : k ≤ 9) : isSpaceC (digitChar k) = false := by
  interval_cases k <;> decide

/-- Reading back a digit character yields its value. -/
theorem aux_digitVal_digitChar (k : ℕ) (hk : k ≤ 9) : digitVal (digitChar k) = k := by
  interval_cases k <;> decide

/-- Whitespace skipping consumes a leading space. -/
theorem aux_skipSpaces_space (l : List Char) : skipSpaces (' ' :: l) = skipSpaces l := by
  simp [skipSpaces, isSpaceC]

/-- Whitespace skipping stops at a digit character. -/
theorem aux_skipSpaces_digit (k : ℕ) (hk : k ≤ 9) (l : List Char) :
    skipSpaces (digitChar k :: l) = digitChar k :: l := by
  simp [skipSpaces, aux_isSpaceC_digitChar k hk]

/-- Whitespace skipping stops at the year marker. -/
theorem aux_skipSpaces_year (l : List Char) : skipSpaces ('年' :: l) = '年' :: l := by
  simp [skipSpaces, isSpaceC]

/-- Whitespace skipping stops at the month marker. -/
theorem aux_skipSpaces_month (l : List Char) : skipSpaces ('月' :: l) = '月' :: l := by
  simp [skipSpaces, isSpaceC]

/-- Every month length is at most thirty-one days. -/
theorem aux_daysInMonth_le (y m : ℕ) : daysInMonth y m ≤ 31 := by
  unfold daysInMonth
  split_ifs <;> norm_num

/-- The minguo regex search succeeds on every canonical minguo string and
returns the three groups. -/
theorem aux_searchTaiwan_canonical (y m d : ℕ)
    (hy1 : 100 ≤ y) (hy2 : y ≤ 999) (hm : m ≤ 99) (hd : d ≤ 99) :
    searchTaiwan (minguoChars y m d) = some (y, m, d) := by
  have ha : y / 100 ≤ 9 := by omega
  have hb : y / 10 % 10 ≤ 9 := by omega
  have hc : y % 10 ≤ 9 := by omega
  have hma : m / 10 ≤ 9 := by omega
  have hmb : m % 10 ≤ 9 := by omega
  have hda : d / 10 ≤ 9 := by omega
  have hdb : d % 10 ≤ 9 := by omega
  have hms : minguoChars y m d =
      '民' :: '國' :: ' ' :: digitChar (y / 100) :: digitChar (y / 10 % 10) ::
        digitChar (y % 10) :: ' ' :: '年' :: ' ' :: digitChar (m / 10) ::
        digitChar (m % 10) :: ' ' :: '月' :: ' ' :: digitChar (d / 10) ::
        digitChar (d % 10) :: ' ' :: '日' :: [] := rfl
  rw [hms]
  simp only [searchTaiwan, matchTaiwanAt,
    aux_skipSpaces_space, aux_skipSpaces_digit _ ha, aux_skipSpaces_digit _ hb,
    aux_skipSpaces_digit _ hc, aux_skipSpaces_digit _ hma, aux_skipSpaces_digit _ hmb,
    aux_skipSpaces_digit _ hda, aux_skipSpaces_digit _ hdb,
    aux_skipSpaces_year, aux_skipSpaces_month,
    aux_isDigitC_digitChar _ ha, aux_isDigitC_digitChar _ hb, aux_isDigitC_digitChar _ hc,
    aux_isDigitC_digitChar _ hma, aux_isDigitC_digitChar _ hmb,
    aux_isDigitC_digitChar _ hda, aux_isDigitC_digitChar _ hdb,
    matchNum12Lit, matchAfterDigits, matchNum12End,
    aux_digitVal_digitChar _ ha, aux_digitVal_digitChar _ hb, aux_digitVal_digitChar _ hc,
    aux_digitVal_digitChar _ hma, aux_digitVal_digitChar _ hmb,
    aux_digitVal_digitChar _ hda, aux_digitVal_digitChar _ hdb,
    Bool.true_and, Bool.and_self, if_true, and_self, reduceIte]
  simp only [Option.some.injEq, Prod.mk.injEq]
  refine ⟨by omega, by omega, by omega⟩

/-- C7: for every minguo date string of the documented form whose
three-digit year together with the month and day forms a valid calendar
date after adding 1911, CTBCParser._parse_taiwan_date returns the Gregorian
date with year exactly the minguo year plus 1911 and the same month and
day; in particular the documented example with minguo year 113 converts to
the fifteenth of January 2024. -/
theorem C7_minguo_conversion :
    (∀ y m d : ℕ, 100 ≤ y → y ≤ 999 → date_ok (y + 1911) m d →
      ctbc_parse_taiwan_date (minguoChars y m d) = some ⟨y + 1911, m, d⟩) ∧
    ctbc_parse_taiwan_date "民國 113 年 01 月 15 日".toList = some ⟨2024, 1, 15⟩ := by
  constructor
  · intro y m d hy1 hy2 hok
    have hm : m ≤ 99 := by
      have := hok.2.2.2.1
      omega
    have hd : d ≤ 99 := by
      have h31 := aux_daysInMonth_le (y + 1911) m
      have := hok.2.2.2.2.2
      omega
    unfold ctbc_parse_taiwan_date
    rw [aux_searchTaiwan_canonical y m d hy1 hy2 hm hd]
    dsimp only
    rw [if_pos hok]
  · decide

/-- Witness for C7: the general conversion statement applied to the minguo
triple of the documented example. -/
theorem C7_minguo_conversion_witness :
    ctbc_parse_taiwan_date (minguoChars 113 1 15) = some ⟨2024, 1, 15⟩ := by
  simpa using C7_minguo_conversion.1 113 1 15 (by norm_num) (by norm_num) (by decide)
